import Mathlib

/-!
# Verification of the rover ops backend (`src/backend.py`)

Shallow embedding of the backend's capture/encode/teleop/process-control
logic, with theorems settling the specification claims.

Conventions of the embedding:
* Python floats are modelled as rationals (`ℚ`); `math.sin` / `math.cos`
  are modelled by `Real.sin` / `Real.cos` where oscillator values matter.
* Machine/OS effects (spawning, signalling, file reads, the codec) are
  modelled by explicit environment records supplying each outcome the
  source branches on; the functions are otherwise translated line by line.
* Fallible Python code is modelled with `Except` / `Option`; an uncaught
  Python exception is an `Except.error` value that propagates.
-/

namespace Backend

/-! ## Teleop command mapping (`publish_teleop`, backend.py lines 330-357)

`Twist` models `geometry_msgs.msg.Twist` restricted to the two fields the
backend writes (`linear.x` and `angular.z`); a fresh `Twist()` is all zeros.
-/

/-- `LINEAR_SPEED = 0.3` (m/s). -/
def LINEAR_SPEED : ℚ := 3 / 10

/-- `ANGULAR_SPEED = 0.8` (rad/s). -/
def ANGULAR_SPEED : ℚ := 4 / 5

structure Twist where
  linearX : ℚ
  angularZ : ℚ
deriving DecidableEq, Repr

/-- The body of `publish_teleop` once the publisher is available: build the
`Twist` for a direction string, or reject (`None` models the `return False`
branch for an unknown direction, where no message is published). -/
def teleopTwist (direction : String) : Option Twist :=
  if direction = "forward" then some ⟨LINEAR_SPEED, 0⟩
  else if direction = "backward" then some ⟨-LINEAR_SPEED, 0⟩
  else if direction = "left" then some ⟨0, ANGULAR_SPEED⟩
  else if direction = "right" then some ⟨0, -ANGULAR_SPEED⟩
  else if direction = "stop" then some ⟨0, 0⟩
  else none

/-- `publish_teleop(direction)`: returns `False` (no publish) when the
ROS publisher is unavailable or the direction is unknown; otherwise
publishes the mapped `Twist` and returns `True`.  The result pairs the
Python return value with the message published, if any. -/
def publish_teleop (rosAvailable : Bool) (direction : String) :
    Bool × Option Twist :=
  if ¬rosAvailable then (false, none)
  else
    match teleopTwist direction with
    | some msg => (true, some msg)
    | none => (false, none)

/-! ## SLAM process supervisor (`start_slam` / `stop_slam` / `slam_status`,
backend.py lines 438-488)

A `Proc` models a `subprocess.Popen` handle: `live = true` iff
`poll() is None`.  `SlamState.tracked` is the `SLAM_PROC` global;
`released` is the log of handles the supervisor has dropped (overwritten
or cleared), kept so that "how many live processes exist" is expressible.
`nextPid` makes spawned pids fresh.

Every operation's whole body runs inside `with SLAM_LOCK:` in the source,
so each is modelled as one atomic state transition: the check-and-spawn
(resp. check-and-kill) sequence cannot interleave with another operation.
-/

structure Proc where
  pid : Nat
  live : Bool
deriving DecidableEq, Repr

structure SlamState where
  tracked : Option Proc
  released : List Proc
  nextPid : Nat
deriving DecidableEq, Repr

/-- `SLAM_PROC is not None and SLAM_PROC.poll() is None`. -/
def trackedLive (s : SlamState) : Bool :=
  match s.tracked with
  | some p => p.live
  | none => false

/-- Number of live processes the supervisor has ever spawned and not seen die. -/
def liveCount (s : SlamState) : Nat :=
  (if trackedLive s then 1 else 0) + (s.released.filter (·.live)).length

/-- Drop the currently tracked handle into the released log. -/
def releaseTracked (s : SlamState) : List Proc :=
  match s.tracked with
  | some p => p :: s.released
  | none => s.released

/-- `slam_status()` (lines 438-442). -/
def slam_status (s : SlamState) : String :=
  if trackedLive s then "running" else "stopped"

/-- `start_slam()` (lines 445-460): under the lock, if the tracked handle is
live return `"running"`; otherwise spawn a fresh process (in its own
process group, stdout/stderr discarded) and track it, returning
`"running"`. -/
def start_slam (s : SlamState) : String × SlamState :=
  if trackedLive s then ("running", s)
  else
    ("running",
      { tracked := some ⟨s.nextPid, true⟩
        released := releaseTracked s
        nextPid := s.nextPid + 1 })

/-- OS-level actions `stop_slam` can perform, in order. -/
inductive StopAction where
  | sigtermGroup (pid : Nat)
  | waitUpTo (seconds : ℚ)
  | sigkillGroup (pid : Nat)
  | terminateChild (pid : Nat)
deriving DecidableEq, Repr

/-- Outcomes of the OS calls inside `stop_slam` that the source branches on:
`pgidFails` - `os.getpgid` (or the group signalling) raises, taking the
`except Exception` fallback; `exitsInTime` - `SLAM_PROC.wait(timeout=5)`
returns before the timeout (no `TimeoutExpired`). -/
structure StopEnv where
  pgidFails : Bool
  exitsInTime : Bool
deriving DecidableEq, Repr

/-- `stop_slam()` (lines 463-488): under the lock, a no-op returning
`"stopped"` when no live handle is tracked; otherwise SIGTERM the process
group, wait up to 5 seconds, SIGKILL the group on timeout; if the group
cannot be located, fall back to terminating just the child.  The tracked
handle is cleared on every path.  The signalled process is modelled as
dead afterwards (SIGKILL taken as effective).  Returns the status string,
the new state, and the OS actions performed. -/
def stop_slam (env : StopEnv) (s : SlamState) :
    String × SlamState × List StopAction :=
  match s.tracked with
  | none => ("stopped", s, [])
  | some p =>
    if ¬p.live then
      ("stopped", { s with tracked := none }, [])
    else if env.pgidFails then
      ("stopped",
        { tracked := none
          released := { p with live := false } :: s.released
          nextPid := s.nextPid },
        [.terminateChild p.pid])
    else
      ("stopped",
        { tracked := none
          released := { p with live := false } :: s.released
          nextPid := s.nextPid },
        [.sigtermGroup p.pid, .waitUpTo 5] ++
          (if env.exitsInTime then [] else [.sigkillGroup p.pid]))

/-! ## Stream constants (backend.py lines 48-60) -/

/-- `FRAME_INTERVAL_SEC = 1.0 / 80.0`. -/
def FRAME_INTERVAL_SEC : ℚ := 1 / 80

/-- `MAX_STREAM_WIDTH = 960`. -/
def MAX_STREAM_WIDTH : Nat := 960

/-- `RGB_JPEG_QUALITY = 82`. -/
def RGB_JPEG_QUALITY : Nat := 82

/-- `MOCK_FRAME_HEIGHT = max(1, int(round(MAX_STREAM_WIDTH * 9 / 16)))`
(960 * 9 / 16 = 540 exactly). -/
def MOCK_FRAME_HEIGHT : Nat := max 1 (MAX_STREAM_WIDTH * 9 / 16)

/-! ## `/slam` endpoint dispatch (`slam`, backend.py lines 509-527)

`pyLower` models `str.lower` for ASCII strings (the action keywords are
ASCII; Lean's `Char.toLower` and Python's `str.lower` agree there). -/

def pyLower (sv : String) : String := ⟨sv.data.map Char.toLower⟩

def pyUpper (sv : String) : String := ⟨sv.data.map Char.toUpper⟩

/-- Reply of the `/slam` endpoint: `ok state` is
`{"status": "ok", "state": state}`, `invalid` is
`{"status": "error", "detail": "Invalid action"}`. -/
inductive SlamReply where
  | ok (state : String)
  | invalid
deriving DecidableEq, Repr

/-- The `/slam` endpoint body: lowercase the action, then dispatch to
`start_slam` / `stop_slam` / `slam_status`, else reject. -/
def slamEndpoint (env : StopEnv) (action : String) (s : SlamState) :
    SlamReply × SlamState :=
  let a := pyLower action
  if a = "start" then
    let r := start_slam s
    (.ok r.1, r.2)
  else if a = "stop" then
    let r := stop_slam env s
    (.ok r.1, r.2.1)
  else if a = "status" then
    (.ok (slam_status s), s)
  else
    (.invalid, s)

/-! ## Frame encoder (`encode_frame`, backend.py lines 80-119)

`NpImage` models the shape of the numpy pixel array handed to
`Image.fromarray` (a valid height x width x RGB, 8-bit array).  The codec
library (Pillow) is modelled by `Codec`: the set of formats the runtime
build can save, and an opaque base64 body for each performed save.  JPEG
is always compiled into Pillow, which the source's fallback
(`except (KeyError, OSError)` -> save as JPEG) relies on; that invariant
is the `jpeg_ok` field. -/

structure NpImage where
  width : Nat
  height : Nat
deriving DecidableEq, Repr

/-- Keyword arguments of one `img.save` call (WEBP's `method=6` does not
affect any claim and is omitted). -/
structure SaveParams where
  fmt : String
  quality : Nat
  subsampling0 : Bool
  progressive : Bool
deriving DecidableEq, Repr

structure Codec where
  supported : List String
  bytesFor : NpImage → SaveParams → String
  jpeg_ok : "JPEG" ∈ supported

/-- `if max_width and img.width > max_width: img = img.resize(...)`
(lines 93-96).  Python truthiness makes `None` and `0` skip the resize;
`int(img.height * ratio)` truncates, modelled by natural division. -/
def resizeToWidth (img : NpImage) (maxWidth : Option Nat) : NpImage :=
  match maxWidth with
  | none => img
  | some mw =>
    if mw ≠ 0 ∧ mw < img.width then
      ⟨mw, max 1 (img.height * mw / img.width)⟩
    else img

/-- Result of `encode_frame`: the data URL it returns, plus the MIME type,
save parameters and image it actually used (exposed for the theorems). -/
structure EncodeResult where
  dataURL : String
  mime : String
  saved : SaveParams
  sentImage : NpImage
deriving Repr

/-- `encode_frame(array, mode="RGB", fmt=..., quality=..., max_width=...)`
(lines 80-119): uppercase the format, derive the MIME type, optionally
downscale, then save; if the runtime codec does not support the format
(Pillow raises `KeyError`/`OSError`), fall back to JPEG at
`min(quality + 5, 100)` with the MIME type replaced by `image/jpeg`.
Total: no exception escapes for a valid RGB array (the fallback save is
JPEG, which the codec always supports). -/
def encode_frame (codec : Codec) (array : NpImage) (fmt : String)
    (quality : Nat) (maxWidth : Option Nat) : EncodeResult :=
  let F := pyUpper fmt
  let mime := "image/" ++ pyLower F
  let img := resizeToWidth array maxWidth
  if F ∈ codec.supported then
    let params : SaveParams := ⟨F, quality, F = "JPEG", F = "JPEG"⟩
    { dataURL := "data:" ++ mime ++ ";base64," ++ codec.bytesFor img params
      mime := mime
      saved := params
      sentImage := img }
  else
    let params : SaveParams := ⟨"JPEG", min (quality + 5) 100, true, true⟩
    { dataURL := "data:image/jpeg;base64," ++ codec.bytesFor img params
      mime := "image/jpeg"
      saved := params
      sentImage := img }

/-! ## Frame source and capture state (`ZedStreamer`, backend.py lines 122-308)

`CamEnv` supplies the outcomes of the hardware and clock calls one
`_generate_frame` cycle can make: SDK presence, which preferred profile
(if any) opens, whether `grab` succeeds, the retrieved RGB array, the
wall-clock timestamp, and the codec.  `StreamerState` carries the mutable
fields of `ZedStreamer` the frame path uses (`_cam`/`_profile` merged
into the recorded profile string, `last_error`, `_latest_frame`). -/

structure Frame where
  timestamp : String
  rgb : String
  depth : String
  source : String
  status : String
  profile : String
deriving DecidableEq, Repr

/-- `preferred_profiles` (lines 161-166). -/
def preferredProfiles : List (String × Nat) :=
  [("HD720", 60), ("HD1080", 60), ("HD720", 30), ("HD1080", 30)]

structure CamEnv where
  sdkAvailable : Bool
  openOk : String × Nat → Bool
  grabOk : Bool
  camImage : NpImage
  now : String
  codec : Codec

structure StreamerState where
  cam : Option String
  lastError : Option String
  latestFrame : Option Frame

/-- Python `a or b` on an optional string (`None` and `""` are falsy). -/
def pyOrStr (a : Option String) (b : String) : String :=
  match a with
  | some sv => if sv = "" then b else sv
  | none => b

/-- `ensure_camera()` (lines 138-189): no SDK means mock feed; an open
camera is reused, never reopened; otherwise try the preferred profiles in
order and record the first that opens. -/
def ensure_camera (env : CamEnv) (s : StreamerState) : Bool × StreamerState :=
  if ¬env.sdkAvailable then
    (false, { s with lastError := some "pyzed SDK not available; using mock feed" })
  else
    match s.cam with
    | some _ => (true, s)
    | none =>
      match preferredProfiles.find? (fun p => env.openOk p) with
      | some (res, fps) =>
        (true, { s with
          cam := some (res ++ "@" ++ toString fps ++ "fps")
          lastError := none })
      | none =>
        (false, { s with lastError := some "Failed to open ZED camera" })

/-- `_capture_from_camera()` (lines 201-228): `None` when the camera is
absent or the grab fails, else a live RGB-only frame encoded at
`RGB_JPEG_QUALITY` and capped at `MAX_STREAM_WIDTH`. -/
def captureFromCamera (env : CamEnv) (s : StreamerState) :
    Option Frame × StreamerState :=
  match s.cam with
  | none => (none, s)
  | some prof =>
    if ¬env.grabOk then
      (none, { s with lastError := some "Failed to grab frame from ZED" })
    else
      (some
        { timestamp := env.now
          rgb := (encode_frame env.codec env.camImage "JPEG"
            RGB_JPEG_QUALITY (some MAX_STREAM_WIDTH)).dataURL
          depth := ""
          source := "zed"
          status := "live"
          profile := prof }, s)

/-- `_mock_frame()` (lines 230-261): the animated RGB gradient (a
960 x 540 uint8 array whose pixel values depend only on elapsed wall
time) encoded exactly like a live frame. -/
def mockFrame (env : CamEnv) (s : StreamerState) : Frame :=
  { timestamp := env.now
    rgb := (encode_frame env.codec ⟨MAX_STREAM_WIDTH, MOCK_FRAME_HEIGHT⟩
      "JPEG" RGB_JPEG_QUALITY (some MAX_STREAM_WIDTH)).dataURL
    depth := ""
    source := "mock"
    status := pyOrStr s.lastError "mock-feed"
    profile := "mock 960x540@24fps" }

/-- `_generate_frame()` (lines 263-269): camera first, mock fallback on
any acquisition failure; re-attempted every cycle. -/
def generateFrame (env : CamEnv) (s : StreamerState) : Frame × StreamerState :=
  let r := ensure_camera env s
  if r.1 then
    match captureFromCamera env r.2 with
    | (some f, s2) => (f, s2)
    | (none, s2) => (mockFrame env s2, s2)
  else
    (mockFrame env r.2, r.2)

/-- `latest()` (lines 300-308): return a copy of the shared latest-frame
slot; if the capture loop has not produced anything yet, synchronously
produce one frame via `_generate_frame`, seed the slot, and return it. -/
def latest (env : CamEnv) (s : StreamerState) : Frame × StreamerState :=
  match s.latestFrame with
  | some f => (f, s)
  | none =>
    let r := generateFrame env s
    (r.1, { r.2 with latestFrame := some r.1 })

/-- The scheduling step at the bottom of `_capture_loop` (lines 292-298):
after publishing, `next_tick += FRAME_INTERVAL_SEC`; with `now` the
monotonic-clock reading after the cycle's work, a positive `delay` sleeps
until `next_tick`, otherwise the schedule realigns to `now`.  Returns the
next iteration's `next_tick`. -/
def captureLoopNextTick (next_tick now : ℚ) : ℚ :=
  let nt := next_tick + FRAME_INTERVAL_SEC
  let delay := nt - now
  if delay > 0 then nt else now

/-- A frame the streamer may hand to a client: tagged with one of the two
source tags of the data model and carrying a JPEG data URL payload. -/
def WellFormedFrame (f : Frame) : Prop :=
  (f.source = "zed" ∨ f.source = "mock") ∧
  ∃ body, f.rgb = "data:image/jpeg;base64," ++ body

/-- A Pillow build with only the (always present) JPEG codec, e.g. one
compiled without WebP, with a fixed opaque encoded body. -/
def jpegOnlyCodec : Codec := ⟨["JPEG"], fun _ _ => "QUJD", by decide⟩

/-! ## Thermal zone files (`read_thermal_zone` / `resolve_jetson_temps`,
backend.py lines 360-378)

The filesystem under `THERMAL_ZONE_ROOT` is modelled as the ordered list
of `thermal_zone*` directories the glob yields; each zone's `type` and
`temp` files either read as a string or raise `OSError`. -/

inductive ReadResult where
  | ok (content : String)
  | osError
deriving DecidableEq, Repr

structure ThermalZone where
  typeFile : ReadResult
  tempFile : ReadResult
deriving DecidableEq, Repr

/-- The one Python exception the thermal path can leak (`float(raw)`
raising `ValueError`). -/
inductive PyError where
  | valueError
deriving DecidableEq, Repr

/-- `str.strip()`: remove leading and trailing whitespace. -/
def pyStrip (sv : String) : String :=
  ⟨((sv.data.dropWhile Char.isWhitespace).reverse.dropWhile
    Char.isWhitespace).reverse⟩

def digitsVal (l : List Char) : Nat :=
  l.foldl (fun a c => a * 10 + (c.toNat - 48)) 0

/-- `float(raw)` on the plain decimal literals sysfs thermal files hold
(optional sign, digits, optional fractional part); content outside this
form makes Python `float` raise `ValueError`, modelled as `none`. -/
def pyFloat (sv : String) : Option ℚ :=
  let signed : ℚ × List Char :=
    match sv.data with
    | '-' :: r => (-1, r)
    | '+' :: r => (1, r)
    | r => (1, r)
  let intPart := signed.2.takeWhile Char.isDigit
  let rest := signed.2.dropWhile Char.isDigit
  match rest with
  | [] =>
    if intPart.isEmpty then none
    else some (signed.1 * digitsVal intPart)
  | '.' :: frac =>
    if frac.all Char.isDigit ∧ ¬(intPart.isEmpty ∧ frac.isEmpty) then
      some (signed.1 * (digitsVal intPart + digitsVal frac / 10 ^ frac.length))
    else none
  | _ => none

/-- `read_thermal_zone(zone_type)` (lines 360-368): scan the zones in
glob order; `OSError` on either read skips the zone (`continue`); the
first matching zone returns `float(raw) / 1000.0`.  Temperature content
that `float` cannot parse raises `ValueError`, which the
`except OSError` clause does not catch, so it propagates. -/
def read_thermal_zone (fs : List ThermalZone) (zoneType : String) :
    Except PyError (Option ℚ) :=
  match fs with
  | [] => .ok none
  | z :: rest =>
    match z.typeFile with
    | .osError => read_thermal_zone rest zoneType
    | .ok tcontent =>
      if pyStrip tcontent = zoneType then
        match z.tempFile with
        | .osError => read_thermal_zone rest zoneType
        | .ok raw =>
          match pyFloat (pyStrip raw) with
          | some v => .ok (some (v / 1000))
          | none => .error .valueError
      else read_thermal_zone rest zoneType

/-- This zone cannot make `float` raise: its temperature file either
fails to read (skipped by the `except OSError`) or parses. -/
def zoneTempParses (z : ThermalZone) : Bool :=
  match z.tempFile with
  | .ok raw => (pyFloat (pyStrip raw)).isSome
  | .osError => true

/-! ## Telemetry synthesizer (`build_mock_payload`, backend.py lines 381-427)

`math.sin` / `math.cos` are modelled by the real functions; Python's
`round(x, n)` by `pyRound` (Mathlib's `round` is half-up where Python is
half-to-even; they agree away from exact half-way points, and no claim
depends on one).  The `random` jitter draws of one call are a `Jitter`
record. -/

structure JetsonTemps where
  cpuTemp : ℝ
  gpuTemp : ℝ

/-- `round(x, n)` for floats. -/
noncomputable def pyRound (x : ℝ) (n : ℕ) : ℝ :=
  ((round (x * 10 ^ n) : ℤ) : ℝ) / 10 ^ n

/-- `int(x)` for floats: truncation toward zero. -/
noncomputable def pyInt (x : ℝ) : ℤ :=
  if 0 ≤ x then ⌊x⌋ else ⌈x⌉

/-- `resolve_jetson_temps(iteration)` (lines 371-378) after both reads
returned: a zone value is used as is, a missing zone falls back to the
synthetic sinusoid; both are rounded to one decimal. -/
noncomputable def jetsonTempsFrom (cpuOpt gpuOpt : Option ℚ)
    (iteration : ℕ) : JetsonTemps :=
  let cpu : ℝ :=
    match cpuOpt with
    | some v => (v : ℝ)
    | none => 60 + 3 * Real.sin ((iteration : ℝ) / 12)
  let gpu : ℝ :=
    match gpuOpt with
    | some v => (v : ℝ)
    | none => 58 + 2.5 * Real.cos ((iteration : ℝ) / 10)
  ⟨pyRound cpu 1, pyRound gpu 1⟩

/-- `resolve_jetson_temps(iteration)` (lines 371-378): the two thermal
reads (whose `ValueError`, if any, propagates), then value-or-fallback. -/
noncomputable def resolve_jetson_temps (fs : List ThermalZone)
    (iteration : ℕ) : Except PyError JetsonTemps := do
  let cpuOpt ← read_thermal_zone fs "cpu-thermal"
  let gpuOpt ← read_thermal_zone fs "gpu-thermal"
  return jetsonTempsFrom cpuOpt gpuOpt iteration

/-- The `random.randint(-2, 2)` / `random.uniform` draws of one
`build_mock_payload` call, in source order. -/
structure Jitter where
  encFL : ℤ
  encFR : ℤ
  encRL : ℤ
  encRR : ℤ
  dv : ℝ
  dsoc : ℝ

structure Encoders where
  frontLeft : ℤ
  frontRight : ℤ
  rearLeft : ℤ
  rearRight : ℤ

structure PowerSection where
  voltage : ℝ
  soc : ℝ

structure MotorSection where
  torqueOzIn : ℝ
  speedRpm : ℝ
  currentMa : ℝ
  outputPowerW : ℝ
  inputPowerW : ℝ
  efficiency : ℝ

structure TelemetryPayload where
  timestamp : String
  encoders : Encoders
  jetson : JetsonTemps
  power : PowerSection
  motor : MotorSection

/-- The mock motor curve locals of `build_mock_payload` (lines 402-406),
as functions of the tick. -/
noncomputable def torque_oz_in (t : ℕ) : ℝ := 10 + 3 * Real.sin ((t : ℝ) / 9)

noncomputable def speed_rpm (t : ℕ) : ℝ := 260 + 20 * Real.cos ((t : ℝ) / 8)

noncomputable def current_ma (t : ℕ) : ℝ := 250 + 40 * Real.sin ((t : ℝ) / 6)

noncomputable def output_power_w (t : ℕ) : ℝ :=
  0.00074 * torque_oz_in t * speed_rpm t

noncomputable def input_power_w (t : ℕ) : ℝ := current_ma t / 1000 * 24

/-- Line 407:
`max(0.0, min(output_power_w / input_power_w if input_power_w else 0, 1.0))`
(Python float truthiness: a zero input power selects `0`). -/
noncomputable def clampEfficiency (outP inP : ℝ) : ℝ :=
  max 0 (min (if inP = 0 then 0 else outP / inP) 1)

noncomputable def motorEfficiency (t : ℕ) : ℝ :=
  clampEfficiency (output_power_w t) (input_power_w t)

/-- The clamp operation as the specification words it. -/
def specClamp (x lo hi : ℝ) : ℝ := max lo (min x hi)

/-- The payload dict of `build_mock_payload` (lines 381-427) given the
resolved Jetson temperatures: encoder bases plus jitter, decaying
voltage/state of charge, and the motor channel with its efficiency
reported as a rounded percentage. -/
noncomputable def payloadFrom (jetson : JetsonTemps) (iteration : ℕ)
    (j : Jitter) (now : String) : TelemetryPayload :=
  let front_left : ℤ := 120 + pyInt (5 * Real.sin ((iteration : ℝ) / 5))
  let front_right : ℤ := 118 + pyInt (4 * Real.cos ((iteration : ℝ) / 4))
  let rear_left : ℤ := 115 + pyInt (3 * Real.sin ((iteration : ℝ) / 6))
  let rear_right : ℤ := 117 + pyInt (4 * Real.cos ((iteration : ℝ) / 7))
  let voltage : ℝ := 24.5 - 0.002 * iteration + j.dv
  let soc : ℝ := max 0 (85 - 0.02 * iteration + j.dsoc)
  let efficiency : ℝ := motorEfficiency iteration
  { timestamp := now
    encoders :=
      ⟨front_left + j.encFL, front_right + j.encFR,
        rear_left + j.encRL, rear_right + j.encRR⟩
    jetson := jetson
    power := ⟨pyRound voltage 2, pyRound soc 1⟩
    motor :=
      { torqueOzIn := pyRound (torque_oz_in iteration) 2
        speedRpm := pyRound (speed_rpm iteration) 1
        currentMa := pyRound (current_ma iteration) 1
        outputPowerW := pyRound (output_power_w iteration) 3
        inputPowerW := pyRound (input_power_w iteration) 3
        efficiency := pyRound (efficiency * 100) 2 } }

/-- `build_mock_payload(iteration)` (lines 381-427): pure synthesis, with
the only effect (and only possible exception) the thermal resolution. -/
noncomputable def build_mock_payload (fs : List ThermalZone)
    (iteration : ℕ) (j : Jitter) (now : String) :
    Except PyError TelemetryPayload := do
  let jetson ← resolve_jetson_temps fs iteration
  return payloadFrom jetson iteration j now

/-- All-zero jitter draws. -/
def jitter0 : Jitter := ⟨0, 0, 0, 0, 0, 0⟩

/-! ## Interleaving of `_capture_loop` and `stop()` (backend.py lines
271-298)

The capture worker (lines 284-298) loops: check `_stop_event`, generate a
frame, publish it into the shared slot.  `stop()` (lines 278-282) sets
the event and calls `join(timeout=1.0)`, which returns either because the
worker exited or because the bounded wait elapsed.  The two threads are
modelled as a labelled transition system over their program counters;
`joinTimesOut` is the join returning with the worker still running. -/

inductive WorkerPC where
  | check
  | generating
  | publishing
  | exited
deriving DecidableEq, Repr

inductive StopperPC where
  | idle
  | waiting
  | returned
deriving DecidableEq, Repr

structure LoopState where
  stopFlag : Bool
  wpc : WorkerPC
  pubs : Nat
  spc : StopperPC
deriving DecidableEq, Repr

inductive LoopStep : LoopState → LoopState → Prop where
  | checkExit (s : LoopState) : s.wpc = .check → s.stopFlag = true →
      LoopStep s { s with wpc := .exited }
  | checkGo (s : LoopState) : s.wpc = .check → s.stopFlag = false →
      LoopStep s { s with wpc := .generating }
  | genDone (s : LoopState) : s.wpc = .generating →
      LoopStep s { s with wpc := .publishing }
  | publish (s : LoopState) : s.wpc = .publishing →
      LoopStep s { s with wpc := .check, pubs := s.pubs + 1 }
  | stopSignal (s : LoopState) : s.spc = .idle →
      LoopStep s { s with stopFlag := true, spc := .waiting }
  | joinObservesExit (s : LoopState) : s.spc = .waiting → s.wpc = .exited →
      LoopStep s { s with spc := .returned }
  | joinTimesOut (s : LoopState) : s.spc = .waiting →
      LoopStep s { s with spc := .returned }

def LoopReach : LoopState → LoopState → Prop :=
  Relation.ReflTransGen LoopStep

/-- Worker running, nothing published, stop not yet requested. -/
def loopInit : LoopState := ⟨false, .check, 0, .idle⟩

/-- Publications the current worker iteration can still perform. -/
def loopPotential (s : LoopState) : Nat :=
  match s.wpc with
  | .generating => 1
  | .publishing => 1
  | _ => 0

end Backend

namespace Backend

/-! ## Theorems: teleop mapping (claim C3) -/

/-- C3: the teleop command mapping is a pure total function on the closed
enumeration {forward, backward, left, right, stop}: "forward" gives
positive linear and zero angular velocity, "backward" negative linear and
zero angular, "left" zero linear and positive angular, "right" zero
linear and negative angular, "stop" zero/zero; every other direction
string is rejected and nothing is published. -/
theorem teleop_mapping_correct :
    (teleopTwist "forward" = some ⟨LINEAR_SPEED, 0⟩ ∧ 0 < LINEAR_SPEED) ∧
    (teleopTwist "backward" = some ⟨-LINEAR_SPEED, 0⟩ ∧ -LINEAR_SPEED < 0) ∧
    (teleopTwist "left" = some ⟨0, ANGULAR_SPEED⟩ ∧ 0 < ANGULAR_SPEED) ∧
    (teleopTwist "right" = some ⟨0, -ANGULAR_SPEED⟩ ∧ -ANGULAR_SPEED < 0) ∧
    teleopTwist "stop" = some ⟨0, 0⟩ ∧
    ∀ d : String,
      d ∉ ["forward", "backward", "left", "right", "stop"] →
      ∀ ros : Bool, publish_teleop ros d = (false, none) := by
  refine ⟨⟨rfl, by norm_num [LINEAR_SPEED]⟩,
    ⟨rfl, by norm_num [LINEAR_SPEED]⟩,
    ⟨rfl, by norm_num [ANGULAR_SPEED]⟩,
    ⟨rfl, by norm_num [ANGULAR_SPEED]⟩, rfl, ?_⟩
  intro d hd ros
  have h1 : d ≠ "forward" := by simp_all
  have h2 : d ≠ "backward" := by simp_all
  have h3 : d ≠ "left" := by simp_all
  have h4 : d ≠ "right" := by simp_all
  have h5 : d ≠ "stop" := by simp_all
  unfold publish_teleop teleopTwist
  cases ros <;> simp [h1, h2, h3, h4, h5]

/-- Witness for `teleop_mapping_correct` at the concrete rejected
direction "up". -/
theorem teleop_mapping_correct_witness :
    publish_teleop true "up" = (false, none) := by
  have h := teleop_mapping_correct
  exact h.2.2.2.2.2 "up" (by decide) true

/-! ## Theorems: SLAM supervisor start (claim C1)

Atomicity of the check-and-spawn sequence is inherent to the embedding:
the whole body of `start_slam` sits inside `with SLAM_LOCK:` in the
source, so it is modelled as a single state transition. -/

/-- C1: whenever the tracked handle is live, `start_slam` returns
"running" and spawns nothing (the state is untouched); consequently two
consecutive `start_slam` calls from any state whose previously released
handles are all dead both return "running" and leave exactly one live
process. -/
theorem start_slam_at_most_one_live :
    (∀ s : SlamState, trackedLive s = true → start_slam s = ("running", s)) ∧
    (∀ s : SlamState, (∀ p ∈ s.released, p.live = false) →
      (start_slam s).1 = "running" ∧
      (start_slam (start_slam s).2).1 = "running" ∧
      liveCount (start_slam (start_slam s).2).2 = 1) := by
  constructor
  · intro s hs
    simp [start_slam, hs]
  · intro s hrel
    have hfilter : ∀ l : List Proc, (∀ p ∈ l, p.live = false) →
        l.filter (·.live) = [] := by
      intro l hl
      simp only [List.filter_eq_nil_iff]
      intro p hp
      simp [hl p hp]
    by_cases hs : trackedLive s = true
    · have h1 : start_slam s = ("running", s) := by simp [start_slam, hs]
      refine ⟨by simp [h1], by simp [h1], ?_⟩
      simp [h1, liveCount, hs, hfilter s.released hrel]
    · have hrel2 : ∀ p ∈ releaseTracked s, p.live = false := by
        intro p hp
        unfold releaseTracked at hp
        cases htr : s.tracked with
        | none => exact hrel p (by rwa [htr] at hp)
        | some q =>
          rw [htr] at hp
          rcases List.mem_cons.mp hp with h | h
          · subst h
            unfold trackedLive at hs
            rw [htr] at hs
            simpa using hs
          · exact hrel p h
      have h1 : start_slam s = ("running",
          { tracked := some ⟨s.nextPid, true⟩
            released := releaseTracked s
            nextPid := s.nextPid + 1 }) := by
        simp [start_slam, hs]
      have hlive2 : trackedLive
          { tracked := some ⟨s.nextPid, true⟩
            released := releaseTracked s
            nextPid := s.nextPid + 1 } = true := by
        simp [trackedLive]
      refine ⟨by simp [h1], ?_, ?_⟩
      · rw [h1]
        simp [start_slam, hlive2]
      · rw [h1]
        simp [start_slam, hlive2, liveCount,
          hfilter (releaseTracked s) hrel2]

/-- Witness for `start_slam_at_most_one_live`: from the fresh supervisor
state, the double start returns "running" twice and exactly one live
process exists. -/
theorem start_slam_at_most_one_live_witness :
    (start_slam ⟨none, [], 0⟩).1 = "running" ∧
    (start_slam (start_slam ⟨none, [], 0⟩).2).1 = "running" ∧
    liveCount (start_slam (start_slam ⟨none, [], 0⟩).2).2 = 1 :=
  start_slam_at_most_one_live.2 ⟨none, [], 0⟩ (by intro p hp; simp at hp)

/-! ## Theorems: SLAM supervisor stop (claim C2) -/

/-- C2: `stop_slam` returns "stopped" and clears the tracked handle on
every path.  With no tracked handle it is a complete no-op; with an
already-exited handle it performs no OS action; with a live handle and a
locatable process group it SIGTERMs the group, waits up to 5 seconds, and
SIGKILLs the group exactly when the wait times out; when locating the
group fails it falls back to terminating just the child. -/
theorem stop_slam_stops_and_clears :
    ∀ (env : StopEnv) (s : SlamState),
      (stop_slam env s).1 = "stopped" ∧
      (stop_slam env s).2.1.tracked = none ∧
      (s.tracked = none → stop_slam env s = ("stopped", s, [])) ∧
      (∀ p : Proc, s.tracked = some p → p.live = false →
        (stop_slam env s).2.2 = []) ∧
      (∀ p : Proc, s.tracked = some p → p.live = true → env.pgidFails = false →
        (stop_slam env s).2.2 =
          [.sigtermGroup p.pid, .waitUpTo 5] ++
            (if env.exitsInTime then [] else [.sigkillGroup p.pid])) ∧
      (∀ p : Proc, s.tracked = some p → p.live = true → env.pgidFails = true →
        (stop_slam env s).2.2 = [.terminateChild p.pid]) := by
  intro env s
  cases htr : s.tracked with
  | none =>
    have h : stop_slam env s = ("stopped", s, []) := by
      simp [stop_slam, htr]
    refine ⟨by rw [h], by rw [h]; exact htr, fun _ => h, ?_, ?_, ?_⟩ <;>
      · intro p hp
        simp at hp
  | some p =>
    by_cases hl : p.live = true
    · by_cases hpg : env.pgidFails = true
      · have h : stop_slam env s =
            ("stopped",
              { tracked := none
                released := { p with live := false } :: s.released
                nextPid := s.nextPid },
              [.terminateChild p.pid]) := by
          simp [stop_slam, htr, hl, hpg]
        refine ⟨by rw [h], by rw [h], ?_, ?_, ?_, ?_⟩
        · intro hc; simp at hc
        · intro q hq hqd
          injection hq with hpq
          rw [hpq] at hl
          rw [hl] at hqd
          simp at hqd
        · intro q hq hql hpg2
          rw [hpg2] at hpg
          simp at hpg
        · intro q hq hql hpg2
          injection hq with hpq
          rw [h, ← hpq]
      · have h : stop_slam env s =
            ("stopped",
              { tracked := none
                released := { p with live := false } :: s.released
                nextPid := s.nextPid },
              [.sigtermGroup p.pid, .waitUpTo 5] ++
                (if env.exitsInTime then [] else [.sigkillGroup p.pid])) := by
          simp [stop_slam, htr, hl, hpg]
        refine ⟨by rw [h], by rw [h], ?_, ?_, ?_, ?_⟩
        · intro hc; simp at hc
        · intro q hq hqd
          injection hq with hpq
          rw [hpq] at hl
          rw [hl] at hqd
          simp at hqd
        · intro q hq hql hpg2
          injection hq with hpq
          rw [h, ← hpq]
        · intro q hq hql hpg2
          rw [hpg2] at hpg
          simp at hpg
    · rw [Bool.not_eq_true] at hl
      have h : stop_slam env s = ("stopped", { s with tracked := none }, []) := by
        simp [stop_slam, htr, hl]
      refine ⟨by rw [h], by rw [h], ?_, fun _ _ _ => by rw [h], ?_, ?_⟩
      · intro hc; simp at hc
      all_goals
        intro q hq hql hpg2
        injection hq with hpq
        rw [hpq] at hl
        rw [hql] at hl
        simp at hl

/-- Witness for `stop_slam_stops_and_clears` at a live tracked process
with a working process group and a wait that times out: SIGTERM then
SIGKILL, handle cleared, "stopped" returned. -/
theorem stop_slam_stops_and_clears_witness :
    (stop_slam ⟨false, false⟩ ⟨some ⟨7, true⟩, [], 8⟩).1 = "stopped" ∧
    (stop_slam ⟨false, false⟩ ⟨some ⟨7, true⟩, [], 8⟩).2.1.tracked = none ∧
    (stop_slam ⟨false, false⟩ ⟨some ⟨7, true⟩, [], 8⟩).2.2 =
      [.sigtermGroup 7, .waitUpTo 5, .sigkillGroup 7] := by
  have h := stop_slam_stops_and_clears ⟨false, false⟩ ⟨some ⟨7, true⟩, [], 8⟩
  refine ⟨h.1, h.2.1, ?_⟩
  have := h.2.2.2.2.1 ⟨7, true⟩ rfl rfl rfl
  simpa using this

/-! ## Theorems: `/slam` endpoint case-insensitive dispatch (claim C10) -/

/-- C10: the `/slam` endpoint lowercases the action string before
dispatch, so any string whose lowercase form is "start" / "stop" /
"status" is dispatched to the corresponding supervisor operation, and a
string is rejected with an error exactly when its lowercase form is
outside that set. -/
theorem slam_endpoint_case_insensitive :
    ∀ (env : StopEnv) (a : String) (s : SlamState),
      (pyLower a = "start" →
        slamEndpoint env a s = ((.ok (start_slam s).1), (start_slam s).2)) ∧
      (pyLower a = "stop" →
        slamEndpoint env a s =
          ((.ok (stop_slam env s).1), (stop_slam env s).2.1)) ∧
      (pyLower a = "status" →
        slamEndpoint env a s = ((.ok (slam_status s)), s)) ∧
      ((slamEndpoint env a s).1 = .invalid ↔
        pyLower a ∉ ["start", "stop", "status"]) ∧
      ((slamEndpoint env a s).1 = .invalid → (slamEndpoint env a s).2 = s) := by
  intro env a s
  refine ⟨?_, ?_, ?_, ?_, ?_⟩
  · intro h; simp [slamEndpoint, h]
  · intro h; simp [slamEndpoint, h]
  · intro h; simp [slamEndpoint, h]
  · by_cases h1 : pyLower a = "start"
    · simp [slamEndpoint, h1]
    · by_cases h2 : pyLower a = "stop"
      · simp [slamEndpoint, h1, h2]
      · by_cases h3 : pyLower a = "status"
        · simp [slamEndpoint, h1, h2, h3]
        · simp [slamEndpoint, h1, h2, h3]
  · intro h
    by_cases h1 : pyLower a = "start" <;>
      by_cases h2 : pyLower a = "stop" <;>
        by_cases h3 : pyLower a = "status" <;>
          simp_all [slamEndpoint]

/-- Witness for `slam_endpoint_case_insensitive`: "START" is accepted and
dispatched to `start_slam`, and "reset" is rejected with the state
untouched. -/
theorem slam_endpoint_case_insensitive_witness :
    slamEndpoint ⟨false, true⟩ "START" ⟨none, [], 0⟩ =
      ((.ok "running"), ⟨some ⟨0, true⟩, [], 1⟩) ∧
    (slamEndpoint ⟨false, true⟩ "reset" ⟨none, [], 0⟩).1 = .invalid := by
  constructor
  · have h := (slam_endpoint_case_insensitive ⟨false, true⟩ "START"
      ⟨none, [], 0⟩).1 (by decide)
    rw [h]
    simp [start_slam, trackedLive, releaseTracked]
  · exact ((slam_endpoint_case_insensitive ⟨false, true⟩ "reset"
      ⟨none, [], 0⟩).2.2.2.1).mpr (by decide)

/-! ## Theorems: frame encoder fallback (claim C4) -/

/-- The format string "JPEG" is always saved as such: it uppercases to
itself and every codec supports it. -/
theorem pyUpper_jpeg_mem (codec : Codec) : pyUpper "JPEG" ∈ codec.supported := by
  have h : pyUpper "JPEG" = "JPEG" := by decide
  rw [h]
  exact codec.jpeg_ok

/-- Encoding with the JPEG format always yields a JPEG data URL. -/
theorem encode_jpeg_dataURL (codec : Codec) (img : NpImage) (q : Nat)
    (mw : Option Nat) :
    ∃ body, (encode_frame codec img "JPEG" q mw).dataURL =
      "data:image/jpeg;base64," ++ body := by
  simp only [encode_frame]
  rw [if_pos (pyUpper_jpeg_mem codec)]
  exact ⟨_, rfl⟩

/-- C4: `encode_frame` is total on valid RGB inputs (it is a function in
the embedding; no exception escapes), its result is always a data URL
built from its reported MIME type, and when the requested format is
unsupported by the runtime codec it saves JPEG instead at quality
`min(quality + 5, 100)` and reports the substituted MIME type
`image/jpeg` in place of the requested one. -/
theorem encode_frame_fallback_graceful :
    ∀ (codec : Codec) (array : NpImage) (fmt : String) (q : Nat)
      (mw : Option Nat),
      (∃ body, (encode_frame codec array fmt q mw).dataURL =
        "data:" ++ (encode_frame codec array fmt q mw).mime ++
          ";base64," ++ body) ∧
      (pyUpper fmt ∉ codec.supported →
        (encode_frame codec array fmt q mw).mime = "image/jpeg" ∧
        (encode_frame codec array fmt q mw).saved.fmt = "JPEG" ∧
        (encode_frame codec array fmt q mw).saved.quality = min (q + 5) 100) ∧
      (pyUpper fmt ∈ codec.supported →
        (encode_frame codec array fmt q mw).mime =
          "image/" ++ pyLower (pyUpper fmt) ∧
        (encode_frame codec array fmt q mw).saved.fmt = pyUpper fmt ∧
        (encode_frame codec array fmt q mw).saved.quality = q) := by
  intro codec array fmt q mw
  by_cases hmem : pyUpper fmt ∈ codec.supported
  · refine ⟨?_, fun hc => absurd hmem hc, fun _ => ?_⟩
    · simp only [encode_frame]
      rw [if_pos hmem]
      exact ⟨_, rfl⟩
    · simp only [encode_frame]
      rw [if_pos hmem]
      exact ⟨rfl, rfl, rfl⟩
  · refine ⟨?_, fun _ => ?_, fun hc => absurd hc hmem⟩
    · simp only [encode_frame]
      rw [if_neg hmem]
      exact ⟨_, rfl⟩
    · simp only [encode_frame]
      rw [if_neg hmem]
      exact ⟨rfl, rfl, rfl⟩

/-- Witness for `encode_frame_fallback_graceful`: a JPEG-only Pillow asked
for WEBP at quality 82 falls back to JPEG at quality 87. -/
theorem encode_frame_fallback_graceful_witness :
    pyUpper "WEBP" ∉ jpegOnlyCodec.supported ∧
    (encode_frame jpegOnlyCodec ⟨1280, 720⟩ "WEBP" 82 (some 960)).mime =
      "image/jpeg" ∧
    (encode_frame jpegOnlyCodec ⟨1280, 720⟩ "WEBP" 82 (some 960)).saved.quality
      = 87 := by
  have h := (encode_frame_fallback_graceful jpegOnlyCodec ⟨1280, 720⟩ "WEBP"
    82 (some 960)).2.1 (by decide)
  refine ⟨by decide, h.1, ?_⟩
  rw [h.2.2]
  decide

/-! ## Theorems: capture loop cold read (claim C5) -/

/-- Every frame `_generate_frame` produces is well formed: tagged "zed"
or "mock" and carrying a JPEG data URL. -/
theorem generateFrame_wellFormed (env : CamEnv) (s : StreamerState) :
    WellFormedFrame (generateFrame env s).1 := by
  unfold generateFrame
  set r := ensure_camera env s with hr
  by_cases h1 : r.1 = true
  · rw [if_pos h1]
    rcases hc : captureFromCamera env r.2 with ⟨of, s2⟩
    cases of with
    | some f =>
      simp only []
      have : f.source = "zed" ∧ ∃ body,
          f.rgb = "data:image/jpeg;base64," ++ body := by
        unfold captureFromCamera at hc
        rcases hcam : r.2.cam with _ | prof
        · rw [hcam] at hc; simp at hc
        · rw [hcam] at hc
          by_cases hg : env.grabOk = true
          · simp only [hg, Bool.not_true, reduceIte] at hc
            have hf : f =
                { timestamp := env.now
                  rgb := (encode_frame env.codec env.camImage "JPEG"
                    RGB_JPEG_QUALITY (some MAX_STREAM_WIDTH)).dataURL
                  depth := ""
                  source := "zed"
                  status := "live"
                  profile := prof } := by
              have := congrArg Prod.fst hc
              simpa using this.symm
            subst hf
            exact ⟨rfl, encode_jpeg_dataURL env.codec env.camImage
              RGB_JPEG_QUALITY (some MAX_STREAM_WIDTH)⟩
          · rw [Bool.not_eq_true] at hg
            simp only [hg] at hc
            simp at hc
      exact ⟨Or.inl this.1, this.2⟩
    | none =>
      simp only []
      exact ⟨Or.inr rfl, encode_jpeg_dataURL env.codec _ _ _⟩
  · rw [if_neg h1]
    exact ⟨Or.inr rfl, encode_jpeg_dataURL env.codec _ _ _⟩

/-- C5: a cold read — `latest()` before the capture loop has published
anything — synchronously produces a frame with the same production
function `_generate_frame`, seeds the shared slot with it, and returns
it; the returned frame is well formed, never an empty or missing
result. -/
theorem latest_cold_read_seeds_slot :
    ∀ (env : CamEnv) (s : StreamerState), s.latestFrame = none →
      (latest env s).1 = (generateFrame env s).1 ∧
      (latest env s).2.latestFrame = some (generateFrame env s).1 ∧
      WellFormedFrame (latest env s).1 := by
  intro env s h
  have hl : latest env s =
      ((generateFrame env s).1,
        { (generateFrame env s).2 with
          latestFrame := some (generateFrame env s).1 }) := by
    unfold latest
    rw [h]
  rw [hl]
  exact ⟨rfl, rfl, generateFrame_wellFormed env s⟩

/-- Witness for `latest_cold_read_seeds_slot`: a cold read with no SDK
present seeds the slot with the produced mock frame. -/
theorem latest_cold_read_seeds_slot_witness :
    (⟨none, none, none⟩ : StreamerState).latestFrame = none ∧
    (latest ⟨false, fun _ => false, false, ⟨1280, 720⟩, "t0", jpegOnlyCodec⟩
        ⟨none, none, none⟩).2.latestFrame =
      some (generateFrame
        ⟨false, fun _ => false, false, ⟨1280, 720⟩, "t0", jpegOnlyCodec⟩
        ⟨none, none, none⟩).1 :=
  ⟨rfl, (latest_cold_read_seeds_slot
    ⟨false, fun _ => false, false, ⟨1280, 720⟩, "t0", jpegOnlyCodec⟩
    ⟨none, none, none⟩ rfl).2.1⟩

/-! ## Theorems: capture loop scheduling (claim C6) -/

/-- C6: the capture loop schedules the next tick as
`previous_tick + FRAME_INTERVAL_SEC` whenever the cycle has not fallen
behind by more than one full period, and resynchronizes the schedule to
the current monotonic time exactly when it has (at exactly one period
behind, the two coincide: realigning to `now` yields
`previous_tick + period`). -/
theorem capture_loop_schedule_resync :
    ∀ next_tick now : ℚ,
      (now - next_tick ≤ FRAME_INTERVAL_SEC →
        captureLoopNextTick next_tick now =
          next_tick + FRAME_INTERVAL_SEC) ∧
      (now - next_tick > FRAME_INTERVAL_SEC →
        captureLoopNextTick next_tick now = now) := by
  intro next_tick now
  simp only [captureLoopNextTick]
  constructor
  · intro h
    by_cases hd : next_tick + FRAME_INTERVAL_SEC - now > 0
    · rw [if_pos hd]
    · rw [if_neg hd]
      linarith
  · intro h
    rw [if_neg (by linarith)]

/-- Witness for `capture_loop_schedule_resync`: a cycle that ends 1 s
late realigns to the current time; a cycle that ends within the 12.5 ms
period keeps the `previous + period` schedule. -/
theorem capture_loop_schedule_resync_witness :
    ((1 : ℚ) - 0 > FRAME_INTERVAL_SEC ∧ captureLoopNextTick 0 1 = 1) ∧
    ((1 / 100 : ℚ) - 0 ≤ FRAME_INTERVAL_SEC ∧
      captureLoopNextTick 0 (1 / 100) = 0 + FRAME_INTERVAL_SEC) := by
  constructor
  · refine ⟨by norm_num [FRAME_INTERVAL_SEC], ?_⟩
    exact (capture_loop_schedule_resync 0 1).2
      (by norm_num [FRAME_INTERVAL_SEC])
  · refine ⟨by norm_num [FRAME_INTERVAL_SEC], ?_⟩
    exact (capture_loop_schedule_resync 0 (1 / 100)).1
      (by norm_num [FRAME_INTERVAL_SEC])

/-! ## Theorems: motor efficiency (claim C8) -/

/-- With a nonzero input power the source's expression is exactly the
spec's `clamp(output_power / input_power, 0, 1)`. -/
theorem clampEfficiency_eq_specClamp (outP inP : ℝ) (h : inP ≠ 0) :
    clampEfficiency outP inP = specClamp (outP / inP) 0 1 := by
  unfold clampEfficiency specClamp
  rw [if_neg h]

/-- Zero input power yields efficiency 0, not a division fault. -/
theorem clampEfficiency_zero_input (outP : ℝ) : clampEfficiency outP 0 = 0 := by
  unfold clampEfficiency
  rw [if_pos rfl]
  norm_num

/-- The clamped efficiency always lies in [0, 1]. -/
theorem clampEfficiency_mem (outP inP : ℝ) :
    0 ≤ clampEfficiency outP inP ∧ clampEfficiency outP inP ≤ 1 := by
  unfold clampEfficiency
  exact ⟨le_max_left _ _, max_le (by norm_num) (min_le_right _ _)⟩

/-- C8 counterexample: at tick 0 (thermal files absent, zero jitter) the
efficiency value in the emitted sample is 34.53 — the percentage
`round(100 * clamped_efficiency, 2)` — which is not in [0, 1], refuting
the claim that the emitted value always lies in [0, 1]. -/
theorem telemetry_emitted_efficiency_not_unit_interval :
    (build_mock_payload [] 0 jitter0 "t0").map
      (fun p => p.motor.efficiency) = .ok (3453 / 100) ∧
    ¬ ((3453 / 100 : ℝ) ≤ 1) := by
  constructor
  · have hb : build_mock_payload [] 0 jitter0 "t0" =
        .ok (payloadFrom (jetsonTempsFrom none none 0) 0 jitter0 "t0") := rfl
    rw [hb]
    show Except.ok
      ((payloadFrom (jetsonTempsFrom none none 0) 0 jitter0 "t0").motor.efficiency)
      = Except.ok ((3453 : ℝ) / 100)
    have heff : (payloadFrom (jetsonTempsFrom none none 0) 0 jitter0
        "t0").motor.efficiency = pyRound (motorEfficiency 0 * 100) 2 := rfl
    have h1 : motorEfficiency 0 = 259 / 750 := by
      unfold motorEfficiency clampEfficiency output_power_w input_power_w
        torque_oz_in speed_rpm current_ma
      norm_num [Real.sin_zero, Real.cos_zero]
    have h2 : pyRound ((259 : ℝ) / 750 * 100) 2 = 3453 / 100 := by
      unfold pyRound
      have hr : (round ((259 / 750 * 100 : ℝ) * 10 ^ 2) : ℤ) = 3453 := by
        rw [round_eq,
          show ((259 / 750 * 100 : ℝ) * 10 ^ 2 + 1 / 2) = 20723 / 6 by
            norm_num]
        rw [Int.floor_eq_iff]
        norm_num
      rw [hr]
      norm_num
    rw [heff, h1, h2]
  · norm_num

/-- C8 (amended): the derived motor efficiency equals
`clamp(output_power / input_power, 0, 1)` with zero input power giving 0
rather than a division fault, and always lies in [0, 1]; the emitted
sample reports this efficiency as the rounded percentage
`round(100 * efficiency, 2)`, which lies in [0, 100] (not [0, 1]). -/
theorem telemetry_efficiency_clamped_percentage :
    ∀ t : ℕ,
      (input_power_w t ≠ 0 →
        motorEfficiency t =
          specClamp (output_power_w t / input_power_w t) 0 1) ∧
      (input_power_w t = 0 → motorEfficiency t = 0) ∧
      0 ≤ motorEfficiency t ∧ motorEfficiency t ≤ 1 ∧
      ∀ (jet : JetsonTemps) (j : Jitter) (now : String),
        (payloadFrom jet t j now).motor.efficiency =
          pyRound (motorEfficiency t * 100) 2 ∧
        0 ≤ (payloadFrom jet t j now).motor.efficiency ∧
        (payloadFrom jet t j now).motor.efficiency ≤ 100 := by
  intro t
  have he := clampEfficiency_mem (output_power_w t) (input_power_w t)
  have he2 : 0 ≤ motorEfficiency t ∧ motorEfficiency t ≤ 1 := he
  refine ⟨fun h => clampEfficiency_eq_specClamp _ _ h,
    fun h => by unfold motorEfficiency; rw [h]; exact clampEfficiency_zero_input _,
    he.1, he.2, ?_⟩
  intro jet j now
  have hfield : (payloadFrom jet t j now).motor.efficiency =
      pyRound (motorEfficiency t * 100) 2 := rfl
  have hlow : (0 : ℤ) ≤ round (motorEfficiency t * 100 * 10 ^ 2) := by
    rw [round_eq]
    exact Int.floor_nonneg.mpr (by nlinarith [he2.1])
  have hhigh : round (motorEfficiency t * 100 * 10 ^ 2) ≤ 10000 := by
    rw [round_eq]
    have hb : motorEfficiency t * 100 * 10 ^ 2 + 1 / 2 ≤ 10000 + 1 / 2 := by
      nlinarith [he2.2]
    calc ⌊motorEfficiency t * 100 * 10 ^ 2 + 1 / 2⌋
        ≤ ⌊(10000 : ℝ) + 1 / 2⌋ := Int.floor_le_floor hb
      _ = 10000 := by
          rw [show ((10000 : ℝ) + 1 / 2) = 20001 / 2 by norm_num]
          rw [Int.floor_eq_iff]
          norm_num
  refine ⟨hfield, ?_, ?_⟩
  · rw [hfield]
    unfold pyRound
    exact div_nonneg (by exact_mod_cast hlow) (by norm_num)
  · rw [hfield]
    unfold pyRound
    rw [div_le_iff₀ (by norm_num : (0 : ℝ) < 10 ^ 2)]
    have : ((round (motorEfficiency t * 100 * 10 ^ 2) : ℤ) : ℝ) ≤ 10000 := by
      exact_mod_cast hhigh
    linarith

/-- Witness for `telemetry_efficiency_clamped_percentage` at tick 0: the
input power is the nonzero 6 W, so the efficiency is the spec clamp, and
the emitted percentage is nonnegative. -/
theorem telemetry_efficiency_clamped_percentage_witness :
    input_power_w 0 ≠ 0 ∧
    motorEfficiency 0 = specClamp (output_power_w 0 / input_power_w 0) 0 1 ∧
    0 ≤ (payloadFrom ⟨60, 58⟩ 0 jitter0 "t0").motor.efficiency := by
  have h6 : input_power_w 0 ≠ 0 := by
    unfold input_power_w current_ma
    norm_num [Real.sin_zero]
  exact ⟨h6, (telemetry_efficiency_clamped_percentage 0).1 h6,
    ((telemetry_efficiency_clamped_percentage 0).2.2.2.2 ⟨60, 58⟩ jitter0
      "t0").2.1⟩

/-! ## Theorems: thermal reads (claim C9) -/

/-- When every zone's temperature file is either unreadable (`OSError`,
skipped) or numeric, `read_thermal_zone` returns without raising. -/
theorem read_thermal_zone_ok_of_parses :
    ∀ (fs : List ThermalZone) (zt : String),
      (∀ z ∈ fs, zoneTempParses z = true) →
      ∃ v, read_thermal_zone fs zt = .ok v := by
  intro fs zt h
  induction fs with
  | nil => exact ⟨none, rfl⟩
  | cons z rest ih =>
    have hz := h z (List.mem_cons_self _ _)
    obtain ⟨v, hv⟩ := ih (fun w hw => h w (List.mem_cons_of_mem _ hw))
    cases htype : z.typeFile with
    | osError =>
      exact ⟨v, by simp only [read_thermal_zone, htype]; exact hv⟩
    | ok tcontent =>
      by_cases hmatch : pyStrip tcontent = zt
      · cases htemp : z.tempFile with
        | osError =>
          refine ⟨v, ?_⟩
          simp only [read_thermal_zone, htype]
          rw [if_pos hmatch]
          simp only [htemp]
          exact hv
        | ok raw =>
          have hp : (pyFloat (pyStrip raw)).isSome = true := by
            unfold zoneTempParses at hz
            simp only [htemp] at hz
            exact hz
          obtain ⟨q, hq⟩ := Option.isSome_iff_exists.mp hp
          refine ⟨some (q / 1000), ?_⟩
          simp only [read_thermal_zone, htype]
          rw [if_pos hmatch]
          simp only [htemp, hq]
      · refine ⟨v, ?_⟩
        simp only [read_thermal_zone, htype]
        rw [if_neg hmatch]
        exact hv

/-- C9 (amended): for every tick and every filesystem state in which each
readable temperature file parses as a float, the thermal resolution never
raises — a missing zone or an `OSError` read falls back to the synthetic
sinusoidal values — and the telemetry builder returns a payload; but (see
the counterexample) temperature content that fails float parsing raises
`ValueError` past the read site. -/
theorem thermal_reads_never_raise_when_parseable :
    ∀ (fs : List ThermalZone) (t : ℕ) (j : Jitter) (now : String),
      (∀ z ∈ fs, zoneTempParses z = true) →
      (∃ temps, resolve_jetson_temps fs t = .ok temps) ∧
      (∃ payload, build_mock_payload fs t j now = .ok payload) ∧
      (read_thermal_zone fs "cpu-thermal" = .ok none →
        read_thermal_zone fs "gpu-thermal" = .ok none →
        resolve_jetson_temps fs t = .ok
          ⟨pyRound (60 + 3 * Real.sin ((t : ℝ) / 12)) 1,
            pyRound (58 + 2.5 * Real.cos ((t : ℝ) / 10)) 1⟩) := by
  intro fs t j now h
  obtain ⟨cv, hcv⟩ := read_thermal_zone_ok_of_parses fs "cpu-thermal" h
  obtain ⟨gv, hgv⟩ := read_thermal_zone_ok_of_parses fs "gpu-thermal" h
  have hres : resolve_jetson_temps fs t = .ok (jetsonTempsFrom cv gv t) := by
    unfold resolve_jetson_temps
    simp only [hcv, hgv]
    rfl
  refine ⟨⟨_, hres⟩, ⟨payloadFrom (jetsonTempsFrom cv gv t) t j now, ?_⟩, ?_⟩
  · unfold build_mock_payload
    simp only [hres]
    rfl
  · intro hc hg
    have hcv2 : cv = none := by
      rw [hcv] at hc
      exact Except.ok.inj hc
    have hgv2 : gv = none := by
      rw [hgv] at hg
      exact Except.ok.inj hg
    rw [hres, hcv2, hgv2]
    rfl

/-- Witness for `thermal_reads_never_raise_when_parseable`: one zone of
type `cpu-thermal` holding `53000` (53 °C) parses, so the resolution
succeeds. -/
theorem thermal_reads_never_raise_when_parseable_witness :
    (∀ z ∈ [ThermalZone.mk (.ok "cpu-thermal") (.ok "53000")],
      zoneTempParses z = true) ∧
    ∃ temps, resolve_jetson_temps
      [ThermalZone.mk (.ok "cpu-thermal") (.ok "53000")] 0 = .ok temps :=
  ⟨by decide,
    (thermal_reads_never_raise_when_parseable
      [ThermalZone.mk (.ok "cpu-thermal") (.ok "53000")] 0 jitter0 "t0"
      (by decide)).1⟩

/-- C9 counterexample: a thermal zone of type `cpu-thermal` whose
temperature file reads as the non-numeric string "garbage" makes
`float(raw)` raise `ValueError`, which escapes `read_thermal_zone`
(only `OSError` is caught) and aborts the telemetry builder — refuting
"never raises past the read site" for arbitrary filesystem states. -/
theorem thermal_parse_error_raises :
    read_thermal_zone [ThermalZone.mk (.ok "cpu-thermal") (.ok "garbage")]
      "cpu-thermal" = .error .valueError ∧
    build_mock_payload [ThermalZone.mk (.ok "cpu-thermal") (.ok "garbage")]
      0 jitter0 "t0" = .error .valueError := by
  constructor
  · rfl
  · rfl

/-! ## Theorems: stop() versus the capture worker (claim C7) -/

/-- A step never clears the stop event. -/
theorem loopStep_flag_mono {s s' : LoopState} (h : LoopStep s s')
    (hf : s.stopFlag = true) : s'.stopFlag = true := by
  cases h <;> simp_all

/-- A step never unpublishes a frame. -/
theorem loopStep_pubs_mono {s s' : LoopState} (h : LoopStep s s') :
    s.pubs ≤ s'.pubs := by
  cases h <;> simp

theorem loopReach_flag {s s' : LoopState} (h : LoopReach s s')
    (hf : s.stopFlag = true) : s'.stopFlag = true := by
  induction h with
  | refl => exact hf
  | tail _ hstep ih => exact loopStep_flag_mono hstep ih

theorem loopReach_pubs_mono {s s' : LoopState} (h : LoopReach s s') :
    s.pubs ≤ s'.pubs := by
  induction h with
  | refl => exact le_refl _
  | tail _ hstep ih => exact le_trans ih (loopStep_pubs_mono hstep)

/-- With the stop event set, `pubs + potential` never grows: the worker
can finish at most its in-flight iteration. -/
theorem loopStep_pot_bound {s s' : LoopState} (h : LoopStep s s')
    (hf : s.stopFlag = true) :
    s'.pubs + loopPotential s' ≤ s.pubs + loopPotential s := by
  cases h with
  | checkExit h1 h2 => simp [loopPotential, h1]
  | checkGo h1 h2 => simp [hf] at h2
  | genDone h1 => simp [loopPotential, h1]
  | publish h1 => simp [loopPotential, h1]
  | stopSignal h1 => exact le_refl _
  | joinObservesExit h1 h2 => exact le_refl _
  | joinTimesOut h1 => exact le_refl _

theorem loopReach_pot_bound {s s' : LoopState} (h : LoopReach s s')
    (hf : s.stopFlag = true) :
    s'.pubs + loopPotential s' ≤ s.pubs + loopPotential s := by
  induction h with
  | refl => exact le_refl _
  | tail hab hstep ih =>
    exact le_trans (loopStep_pot_bound hstep (loopReach_flag hab hf)) ih

/-- The stop event is set whenever the stopper has started. -/
theorem loopReach_spc_flag {s : LoopState} (h : LoopReach loopInit s) :
    s.spc = .idle ∨ s.stopFlag = true := by
  induction h with
  | refl => exact Or.inl rfl
  | tail _ hstep ih =>
    cases hstep with
    | checkExit h1 h2 => exact Or.inr h2
    | checkGo h1 h2 => exact ih
    | genDone h1 => exact ih
    | publish h1 => exact ih
    | stopSignal h1 => exact Or.inr rfl
    | joinObservesExit h1 h2 =>
      rcases ih with hi | hi
      · rw [h1] at hi
        exact absurd hi (by decide)
      · exact Or.inr hi
    | joinTimesOut h1 =>
      rcases ih with hi | hi
      · rw [h1] at hi
        exact absurd hi (by decide)
      · exact Or.inr hi

/-- C7 (amended): `stop()` signals termination and waits a bounded time
(`join(timeout=1.0)`) for the worker to exit.  Because the wait is
bounded, a cycle already past its stop-event check may still publish its
in-flight frame after `stop()` returns: once the stop call has returned,
at most one further frame publication can occur, and none at all when
the join observed the worker already exited. -/
theorem capture_stop_bounded_publication_after_return :
    ∀ s s' : LoopState,
      LoopReach loopInit s → s.spc = .returned → LoopReach s s' →
      s'.pubs ≤ s.pubs + 1 ∧ (s.wpc = .exited → s'.pubs = s.pubs) := by
  intro s s' hreach hret hafter
  have hflag : s.stopFlag = true := by
    rcases loopReach_spc_flag hreach with hi | hi
    · rw [hret] at hi
      exact absurd hi (by decide)
    · exact hi
  have hbound := loopReach_pot_bound hafter hflag
  constructor
  · have h1 : loopPotential s ≤ 1 := by
      cases hw : s.wpc <;> simp [loopPotential, hw]
    omega
  · intro hex
    have hpot : loopPotential s = 0 := by simp [loopPotential, hex]
    have hmono := loopReach_pubs_mono hafter
    omega

/-- Witness for `capture_stop_bounded_publication_after_return`: stop is
signalled and the join times out with the worker at its check point; no
more than one publication can follow. -/
theorem capture_stop_bounded_publication_after_return_witness :
    LoopReach loopInit ⟨true, .check, 0, .returned⟩ ∧
    (⟨true, WorkerPC.check, 0, StopperPC.returned⟩ : LoopState).pubs ≤ 0 + 1 := by
  have hr : LoopReach loopInit ⟨true, .check, 0, .returned⟩ := by
    refine Relation.ReflTransGen.head (LoopStep.stopSignal _ rfl) ?_
    exact Relation.ReflTransGen.single (LoopStep.joinTimesOut _ rfl)
  exact ⟨hr,
    (capture_stop_bounded_publication_after_return _ _ hr rfl
      Relation.ReflTransGen.refl).1⟩

/-- C7 counterexample: a concrete interleaving in which `stop()` returns
via the join timeout while the worker is mid-generation; the worker then
publishes one more frame after the stop call has returned — refuting
"once stop() has returned, no frame production occurs afterward". -/
theorem capture_publication_after_stop_returns :
    ¬ (∀ s s' : LoopState,
        LoopReach loopInit s → s.spc = .returned → LoopReach s s' →
        s'.pubs = s.pubs) := by
  intro h
  have hreach : LoopReach loopInit ⟨true, .generating, 0, .returned⟩ := by
    refine Relation.ReflTransGen.head (LoopStep.checkGo _ rfl rfl) ?_
    refine Relation.ReflTransGen.head (LoopStep.stopSignal _ rfl) ?_
    exact Relation.ReflTransGen.single (LoopStep.joinTimesOut _ rfl)
  have hafter : LoopReach (⟨true, .generating, 0, .returned⟩ : LoopState)
      ⟨true, .check, 1, .returned⟩ := by
    refine Relation.ReflTransGen.head (LoopStep.genDone _ rfl) ?_
    exact Relation.ReflTransGen.single (LoopStep.publish _ rfl)
  have hcontra := h _ _ hreach rfl hafter
  simp at hcontra

end Backend
